import Mathlib

/-!
Verification of the `modular_optuna_ml` repository core: the data-hook
pipeline (`src/data/hooks/feature_selection.py`), the study orchestration
engine (`src/study/manager.py`) and the fitted-transform protocol.

Source code under `src/` is embedded shallowly: containers are lists of
rows of optional rationals (a `none` entry is a null / NaN value), hooks
are pure functions returning `Except` where Python raises. The dataset
container abstraction (`data/base.py`, `data/mixins.py`) is not part of
the provided sources, so it is modelled from the spec's container
contract (spec §3), as flagged on each such definition.
-/

/-- Python `int()` applied to a rational: truncation toward zero.
Mirrors `int(n_samples * self.threshold)` in `NullityDrop` hooks. -/
def pyInt (q : ℚ) : ℤ :=
  if q < 0 then -⌊-q⌋ else ⌊q⌋

/-- Modelled from the spec: the Data Container contract (spec §3), whose
implementation (`data/base.py`, `data/mixins.py`) is not among the
provided sources. A rectangular dataset: an ordered list of named
features (columns) and an ordered list of samples (rows), each row a list
of optional rationals (`none` is a null entry). `isMulti` records whether
the concrete manager carries the multi-feature capability mixin
(`MultiFeatureMixin`), required for feature drop/keep/replace. -/
structure BaseDataManager where
  isMulti : Bool
  features : List String
  rows : List (List (Option ℚ))
deriving DecidableEq, Repr

namespace BaseDataManager

/-- Modelled from the spec: `len(x)` — the number of samples. -/
def len (x : BaseDataManager) : ℕ := x.rows.length

/-- Modelled from the spec: `x.as_array()` — full-array conversion of the
container (rows of entries, a `none` entry standing for NaN). -/
def asArray (x : BaseDataManager) : List (List (Option ℚ)) := x.rows

/-- Restrict one row to the columns whose feature name satisfies `keep`,
preserving column order. Helper for feature subset/removal. -/
def rowSelect (names : List String) (row : List (Option ℚ))
    (keep : String → Bool) : List (Option ℚ) :=
  ((names.zip row).filter (fun p => keep p.1)).map Prod.snd

/-- Modelled from the spec: `x.get_features(S)` — feature subset
selection returning a new container, features in the order the container
returns them. -/
def getFeatures (x : BaseDataManager) (s : List String) : BaseDataManager :=
  { isMulti := x.isMulti
    features := x.features.filter (fun f => decide (f ∈ s))
    rows := x.rows.map (fun r => rowSelect x.features r (fun f => decide (f ∈ s))) }

/-- Modelled from the spec: `x.drop_features(S)` — feature removal
returning a new container. -/
def dropFeatures (x : BaseDataManager) (s : List String) : BaseDataManager :=
  { isMulti := x.isMulti
    features := x.features.filter (fun f => !decide (f ∈ s))
    rows := x.rows.map (fun r => rowSelect x.features r (fun f => !decide (f ∈ s))) }

/-- Modelled from the spec: `x.set_features(labels, data)` — feature
replacement/assignment by name with new array data, appending the new
named columns with the rows of `data`. -/
def setFeatures (x : BaseDataManager) (labels : List String)
    (data : List (List (Option ℚ))) : BaseDataManager :=
  { isMulti := x.isMulti
    features := x.features ++ labels
    rows := (x.rows.zip data).map (fun rd => rd.1 ++ rd.2) }

/-- Modelled from the spec: `x[idx]` — indexing by an integer sequence,
returning the row subset at those indices in the given order. -/
def indexRows (x : BaseDataManager) (idx : List ℕ) : BaseDataManager :=
  { isMulti := x.isMulti
    features := x.features
    rows := idx.filterMap (fun i => x.rows.get? i) }

end BaseDataManager

/-- Number of null entries in one sample's array:
`np.sum(pd.isnull(k.as_array()))` for a per-sample view `k`. -/
def sampleNullCount (row : List (Option ℚ)) : ℕ :=
  row.countP (fun e => e.isNone)

/-- `SampleNullityDrop.run` (feature_selection.py:72-79): computes
`null_tolerance = int(n_samples * threshold)`, keeps exactly the samples
whose null count is strictly below the tolerance (via the index list
`keep_idx` built by enumeration), and returns `x[keep_idx]`. -/
def SampleNullityDrop.run (threshold : ℚ) (x : BaseDataManager) : BaseDataManager :=
  let n_samples : ℕ := x.len
  let null_tolerance : ℤ := pyInt ((n_samples : ℚ) * threshold)
  let keep_idx : List ℕ :=
    ((x.rows.enum.filter (fun ik => decide ((sampleNullCount ik.2 : ℤ) < null_tolerance))).map
      Prod.fst)
  x.indexRows keep_idx

/-- Number of null entries of the feature named `k` over all samples:
`np.sum(pd.isnull(x.get_features(k).as_array()))`. -/
def featureNullCount (x : BaseDataManager) (k : String) : ℕ :=
  ((x.getFeatures [k]).asArray.map sampleNullCount).sum

/-- `FeatureNullityDrop.run` (feature_selection.py:83-93): requires the
multi-feature capability, computes `null_tolerance = int(n_samples *
threshold)`, collects `drop_idx`, the features whose null count strictly
exceeds the tolerance, and drops them. -/
def FeatureNullityDrop.run (threshold : ℚ) (x : BaseDataManager) :
    Except String BaseDataManager :=
  if x.isMulti = false then
    .error "DataManager only has one feature which cannot be dropped!"
  else
    let n_samples : ℕ := x.len
    let null_tolerance : ℤ := pyInt ((n_samples : ℚ) * threshold)
    let drop_idx : List String :=
      x.features.filter (fun k => decide (null_tolerance < (featureNullCount x k : ℤ)))
    .ok (x.dropFeatures drop_idx)

/-- `ExplicitDrop.run` (feature_selection.py:37-42): requires the
multi-feature capability, then drops the configured features. -/
def ExplicitDrop.run (features : List String) (x : BaseDataManager) :
    Except String BaseDataManager :=
  if x.isMulti = false then
    .error "DataManager only has one feature! Cannot modify feature set."
  else
    .ok (x.dropFeatures features)

/-- `ExplicitKeep.run` (feature_selection.py:46-51): requires the
multi-feature capability, then restricts to the configured features. -/
def ExplicitKeep.run (features : List String) (x : BaseDataManager) :
    Except String BaseDataManager :=
  if x.isMulti = false then
    .error "DataManager only has one feature! Cannot modify feature set."
  else
    .ok (x.getFeatures features)

-- ### Supporting lemmas ###

/-- For a nonnegative rational, Python `int()` truncation is the floor. -/
theorem pyInt_eq_floor {q : ℚ} (hq : 0 ≤ q) : pyInt q = ⌊q⌋ := by
  unfold pyInt
  simp [not_lt.mpr hq]

theorem pyInt_mono {a b : ℚ} (ha : 0 ≤ a) (hab : a ≤ b) : pyInt a ≤ pyInt b := by
  rw [pyInt_eq_floor ha, pyInt_eq_floor (le_trans ha hab)]
  exact Int.floor_le_floor hab

theorem filterMap_get_of_pairs (l : List α) (pairs : List (ℕ × α))
    (hmem : ∀ q ∈ pairs, l.get? q.1 = some q.2) :
    (pairs.map Prod.fst).filterMap l.get? = pairs.map Prod.snd := by
  induction pairs with
  | nil => rfl
  | cons hd tl ih =>
    simp only [List.map_cons, List.filterMap_cons]
    rw [hmem hd (List.mem_cons_self hd tl)]
    rw [ih (fun q hq => hmem q (List.mem_cons_of_mem hd hq))]

theorem map_snd_filter_enumFrom (p : α → Bool) (l : List α) (k : ℕ) :
    ((l.enumFrom k).filter (fun ik => p ik.2)).map Prod.snd = l.filter p := by
  induction l generalizing k with
  | nil => rfl
  | cons hd tl ih =>
    simp only [List.enumFrom, List.filter_cons]
    by_cases hp : p hd
    · simp [hp, ih (k + 1)]
    · simp [hp, ih (k + 1)]

/-- Indexing a list by the indices of the enum-pairs that satisfy a
predicate recovers the plain filter of the list. -/
theorem filterMap_get_enumFilter (l : List α) (p : α → Bool) :
    ((l.enum.filter (fun ik => p ik.2)).map Prod.fst).filterMap l.get? = l.filter p := by
  have hmem : ∀ q ∈ l.enum.filter (fun ik => p ik.2), l.get? q.1 = some q.2 := by
    intro q hq
    have hq' := List.mem_of_mem_filter hq
    have := List.mem_enum_iff_getElem?.mp hq'
    simpa [List.get?_eq_getElem?] using this
  rw [filterMap_get_of_pairs l _ hmem]
  exact map_snd_filter_enumFrom p l 0

/-- `SampleNullityDrop.run` keeps exactly the rows whose null count is
strictly below the tolerance, in original order: the result's rows are
the plain filter of the input's rows. -/
theorem SampleNullityDrop.run_rows_char (threshold : ℚ) (x : BaseDataManager) :
    (SampleNullityDrop.run threshold x).rows =
      x.rows.filter (fun r =>
        decide ((sampleNullCount r : ℤ) < pyInt ((x.len : ℚ) * threshold))) := by
  unfold SampleNullityDrop.run BaseDataManager.indexRows
  exact filterMap_get_enumFilter x.rows
    (fun r => decide ((sampleNullCount r : ℤ) < pyInt ((x.len : ℚ) * threshold)))

theorem SampleNullityDrop.run_features_char (threshold : ℚ) (x : BaseDataManager) :
    (SampleNullityDrop.run threshold x).features = x.features := rfl

theorem List.length_filter_mono {p q : α → Bool} (l : List α)
    (h : ∀ a, p a = true → q a = true) :
    (l.filter p).length ≤ (l.filter q).length := by
  induction l with
  | nil => exact Nat.le_refl 0
  | cons hd tl ih =>
    simp only [List.filter_cons]
    by_cases hp : p hd
    · simp only [hp, h hd hp, List.length_cons]
      exact Nat.succ_le_succ ih
    · by_cases hq : q hd
      · simp only [hp, hq]
        simp only [Bool.false_eq_true, if_false, if_true, List.length_cons]
        exact Nat.le_succ_of_le ih
      · simp only [hp, hq]
        simp only [Bool.false_eq_true, if_false]
        exact ih

/-- Concrete 3-sample, 2-feature container: null counts per sample are
1, 2 and 0. -/
def xNullExample : BaseDataManager :=
  ⟨true, ["a", "b"], [[some 1, none], [none, none], [some 1, some 2]]⟩

/-- Concrete 4-sample, 3-feature container: null counts per feature are
a ↦ 2, b ↦ 3, c ↦ 0. -/
def xFeatNullExample : BaseDataManager :=
  ⟨true, ["a", "b", "c"],
   [[none, none, some 1], [none, none, some 1],
    [some 1, none, some 1], [some 1, some 1, some 1]]⟩

/-- Concrete single-feature container (no multi-feature capability). -/
def xSingleExample : BaseDataManager := ⟨false, ["a"], [[some 1]]⟩

/-- C4: `SampleNullityDrop.run` returns the container restricted to
exactly the samples whose null count is strictly below
`tolerance = floor(n_samples * threshold)`, kept in original order,
with the feature set untouched. -/
theorem SampleNullityDrop.run_keeps_below_tolerance (threshold : ℚ) (x : BaseDataManager)
    (ht : 0 ≤ threshold) :
    SampleNullityDrop.run threshold x =
      { isMulti := x.isMulti, features := x.features,
        rows := x.rows.filter (fun r =>
          decide ((sampleNullCount r : ℤ) < ⌊(x.len : ℚ) * threshold⌋)) } := by
  have hfl : pyInt ((x.len : ℚ) * threshold) = ⌊(x.len : ℚ) * threshold⌋ :=
    pyInt_eq_floor (mul_nonneg (Nat.cast_nonneg _) ht)
  have hrows := SampleNullityDrop.run_rows_char threshold x
  rw [hfl] at hrows
  have hfeat := SampleNullityDrop.run_features_char threshold x
  cases hdef : SampleNullityDrop.run threshold x with
  | mk im fs rs =>
    rw [hdef] at hrows hfeat
    simp only at hrows hfeat
    have him : im = x.isMulti := by
      have : (SampleNullityDrop.run threshold x).isMulti = x.isMulti := rfl
      rw [hdef] at this
      exact this
    rw [him, hfeat, hrows]

theorem SampleNullityDrop.run_keeps_below_tolerance_witness :
    (0 : ℚ) ≤ 1/2 ∧ SampleNullityDrop.run (1/2) xNullExample =
      { isMulti := xNullExample.isMulti, features := xNullExample.features,
        rows := xNullExample.rows.filter (fun r =>
          decide ((sampleNullCount r : ℤ) < ⌊(xNullExample.len : ℚ) * (1/2)⌋)) } :=
  ⟨by norm_num, SampleNullityDrop.run_keeps_below_tolerance (1/2) xNullExample (by norm_num)⟩

/-- C5: `FeatureNullityDrop.run` on a multi-feature container succeeds
and keeps a feature iff its null count is at most
`tolerance = floor(n_samples * threshold)`; equivalently a feature is
dropped iff its null count strictly exceeds the tolerance, so a count of
exactly `tolerance` is kept and `tolerance + 1` is dropped. -/
theorem FeatureNullityDrop.run_drop_iff (threshold : ℚ) (x : BaseDataManager)
    (hm : x.isMulti = true) (ht : 0 ≤ threshold) :
    ∃ out, FeatureNullityDrop.run threshold x = Except.ok out ∧
      ∀ f, f ∈ out.features ↔
        (f ∈ x.features ∧ (featureNullCount x f : ℤ) ≤ ⌊(x.len : ℚ) * threshold⌋) := by
  have hx : ¬ (x.isMulti = false) := by simp [hm]
  have hfl : pyInt ((x.len : ℚ) * threshold) = ⌊(x.len : ℚ) * threshold⌋ :=
    pyInt_eq_floor (mul_nonneg (Nat.cast_nonneg _) ht)
  have hrun : FeatureNullityDrop.run threshold x =
      Except.ok (x.dropFeatures (x.features.filter
        (fun k => decide (pyInt ((x.len : ℚ) * threshold) < (featureNullCount x k : ℤ))))) := by
    unfold FeatureNullityDrop.run
    rw [if_neg hx]
  refine ⟨_, hrun, ?_⟩
  intro f
  simp only [BaseDataManager.dropFeatures, List.mem_filter, Bool.not_eq_true',
    decide_eq_false_iff_not, decide_eq_true_eq, hfl]
  constructor
  · rintro ⟨hfx, hnd⟩
    refine ⟨hfx, ?_⟩
    by_contra hgt
    push_neg at hgt
    exact hnd ⟨hfx, hgt⟩
  · rintro ⟨hfx, hle⟩
    refine ⟨hfx, ?_⟩
    rintro ⟨-, hq⟩
    exact absurd hq (not_lt.mpr hle)

theorem FeatureNullityDrop.run_drop_iff_witness :
    (xFeatNullExample.isMulti = true ∧ (0 : ℚ) ≤ 1/2) ∧
    (∃ out, FeatureNullityDrop.run (1/2) xFeatNullExample = Except.ok out ∧
      ∀ f, f ∈ out.features ↔
        (f ∈ xFeatNullExample.features ∧
          (featureNullCount xFeatNullExample f : ℤ) ≤
            ⌊(xFeatNullExample.len : ℚ) * (1/2)⌋)) :=
  ⟨⟨rfl, by norm_num⟩,
   FeatureNullityDrop.run_drop_iff (1/2) xFeatNullExample rfl (by norm_num)⟩

/-- C6: for thresholds `t1 ≤ t2` in `[0,1]`, `SampleNullityDrop.run`
with `t1` keeps at most as many samples as with `t2`. -/
theorem SampleNullityDrop.run_monotone_in_threshold (x : BaseDataManager)
    (t1 t2 : ℚ) (h0 : 0 ≤ t1) (h12 : t1 ≤ t2) (h21 : t2 ≤ 1) :
    (SampleNullityDrop.run t1 x).len ≤ (SampleNullityDrop.run t2 x).len := by
  show (SampleNullityDrop.run t1 x).rows.length ≤ (SampleNullityDrop.run t2 x).rows.length
  rw [SampleNullityDrop.run_rows_char, SampleNullityDrop.run_rows_char]
  apply List.length_filter_mono
  intro r hr
  simp only [decide_eq_true_eq] at hr ⊢
  have hmono : pyInt ((x.len : ℚ) * t1) ≤ pyInt ((x.len : ℚ) * t2) :=
    pyInt_mono (mul_nonneg (Nat.cast_nonneg _) h0)
      (mul_le_mul_of_nonneg_left h12 (Nat.cast_nonneg _))
  omega

theorem SampleNullityDrop.run_monotone_in_threshold_witness :
    ((0 : ℚ) ≤ 1/3 ∧ (1/3 : ℚ) ≤ 2/3 ∧ (2/3 : ℚ) ≤ 1) ∧
    (SampleNullityDrop.run (1/3) xNullExample).len ≤
      (SampleNullityDrop.run (2/3) xNullExample).len :=
  ⟨⟨by norm_num, by norm_num, by norm_num⟩,
   SampleNullityDrop.run_monotone_in_threshold xNullExample (1/3) (2/3)
     (by norm_num) (by norm_num) (by norm_num)⟩

/-- C7: on a multi-feature container `x` with configured features `S`
drawn from `x`'s features, `ExplicitKeep` succeeds with feature set
exactly `S` (in the order the container returns them), `ExplicitDrop`
succeeds with feature set `x.features` minus `S`, the two feature sets
are disjoint, and together they reconstruct `x`'s feature set. -/
theorem explicit_keep_drop_complementary (s : List String) (x : BaseDataManager)
    (hm : x.isMulti = true) (hs : ∀ f ∈ s, f ∈ x.features) :
    ∃ xk xd, ExplicitKeep.run s x = Except.ok xk ∧ ExplicitDrop.run s x = Except.ok xd ∧
      xk.features = x.features.filter (fun f => decide (f ∈ s)) ∧
      (∀ f, f ∈ xk.features ↔ f ∈ s) ∧
      (∀ f, f ∈ xd.features ↔ (f ∈ x.features ∧ f ∉ s)) ∧
      (∀ f, ¬(f ∈ xk.features ∧ f ∈ xd.features)) ∧
      (∀ f, f ∈ x.features ↔ (f ∈ xk.features ∨ f ∈ xd.features)) := by
  have hx : ¬ (x.isMulti = false) := by simp [hm]
  have hkeep : ExplicitKeep.run s x = Except.ok (x.getFeatures s) := by
    unfold ExplicitKeep.run
    rw [if_neg hx]
  have hdrop : ExplicitDrop.run s x = Except.ok (x.dropFeatures s) := by
    unfold ExplicitDrop.run
    rw [if_neg hx]
  refine ⟨x.getFeatures s, x.dropFeatures s, hkeep, hdrop, rfl, ?_, ?_, ?_, ?_⟩
  · intro f
    simp only [BaseDataManager.getFeatures, List.mem_filter, decide_eq_true_eq]
    exact ⟨fun h => h.2, fun h => ⟨hs f h, h⟩⟩
  · intro f
    simp only [BaseDataManager.dropFeatures, List.mem_filter, Bool.not_eq_true',
      decide_eq_false_iff_not]
  · intro f
    simp only [BaseDataManager.getFeatures, BaseDataManager.dropFeatures, List.mem_filter,
      Bool.not_eq_true', decide_eq_true_eq, decide_eq_false_iff_not]
    rintro ⟨⟨-, hin⟩, ⟨-, hout⟩⟩
    exact hout hin
  · intro f
    simp only [BaseDataManager.getFeatures, BaseDataManager.dropFeatures, List.mem_filter,
      Bool.not_eq_true', decide_eq_true_eq, decide_eq_false_iff_not]
    constructor
    · intro hf
      by_cases hin : f ∈ s
      · exact Or.inl ⟨hf, hin⟩
      · exact Or.inr ⟨hf, hin⟩
    · rintro (⟨hf, -⟩ | ⟨hf, -⟩) <;> exact hf

theorem explicit_keep_drop_complementary_witness :
    (xFeatNullExample.isMulti = true ∧ ∀ f ∈ ["b"], f ∈ xFeatNullExample.features) ∧
    (∃ xk xd, ExplicitKeep.run ["b"] xFeatNullExample = Except.ok xk ∧
      ExplicitDrop.run ["b"] xFeatNullExample = Except.ok xd ∧
      xk.features = xFeatNullExample.features.filter (fun f => decide (f ∈ ["b"])) ∧
      (∀ f, f ∈ xk.features ↔ f ∈ ["b"]) ∧
      (∀ f, f ∈ xd.features ↔ (f ∈ xFeatNullExample.features ∧ f ∉ ["b"])) ∧
      (∀ f, ¬(f ∈ xk.features ∧ f ∈ xd.features)) ∧
      (∀ f, f ∈ xFeatNullExample.features ↔ (f ∈ xk.features ∨ f ∈ xd.features))) :=
  ⟨⟨rfl, by decide⟩,
   explicit_keep_drop_complementary ["b"] xFeatNullExample rfl (by decide)⟩

/-- C9: on a container lacking the multi-feature capability,
`ExplicitDrop.run`, `ExplicitKeep.run` and `FeatureNullityDrop.run` all
fail with a type/capability error instead of returning a container (the
embedding is pure, so the input container is untouched). -/
theorem single_feature_hooks_fail (s : List String) (threshold : ℚ)
    (x : BaseDataManager) (hm : x.isMulti = false) :
    (∃ e, ExplicitDrop.run s x = Except.error e) ∧
    (∃ e, ExplicitKeep.run s x = Except.error e) ∧
    (∃ e, FeatureNullityDrop.run threshold x = Except.error e) := by
  refine ⟨⟨"DataManager only has one feature! Cannot modify feature set.", ?_⟩,
         ⟨"DataManager only has one feature! Cannot modify feature set.", ?_⟩,
         ⟨"DataManager only has one feature which cannot be dropped!", ?_⟩⟩
  · unfold ExplicitDrop.run
    rw [if_pos hm]
  · unfold ExplicitKeep.run
    rw [if_pos hm]
  · unfold FeatureNullityDrop.run
    rw [if_pos hm]

theorem single_feature_hooks_fail_witness :
    xSingleExample.isMulti = false ∧
    ((∃ e, ExplicitDrop.run ["a"] xSingleExample = Except.error e) ∧
     (∃ e, ExplicitKeep.run ["a"] xSingleExample = Except.error e) ∧
     (∃ e, FeatureNullityDrop.run (1/2) xSingleExample = Except.error e)) :=
  ⟨rfl, single_feature_hooks_fail ["a"] (1/2) xSingleExample rfl⟩

/-- `PCA(n_components=...)` hyper-parameters, as built in
`PrincipalComponentAnalysis.tune` (feature_selection.py:122). -/
structure PCAParams where
  nComponents : ℚ
deriving DecidableEq, Repr

/-- The `proportion` tunable parameter's state (`TunableParam`): the
currently resolved value. -/
structure TunableParamState where
  value : ℚ
deriving DecidableEq, Repr

/-- The `PrincipalComponentAnalysis` hook's attributes
(feature_selection.py:99-112): the `proportion` tuner and the backing
PCA instance, `None` until the first `tune` call. -/
structure PrincipalComponentAnalysis where
  prop_tuner : TunableParamState
  backing_pca : Option PCAParams
deriving DecidableEq, Repr

/-- `PrincipalComponentAnalysis.__init__`: stores the proportion tuner
(default constant 0.7) and sets `backing_pca = None`. -/
def PrincipalComponentAnalysis.init (proportion : ℚ) : PrincipalComponentAnalysis :=
  { prop_tuner := ⟨proportion⟩, backing_pca := none }

/-- `PrincipalComponentAnalysis.tune` (feature_selection.py:119-122):
resolves the proportion from the trial's suggestion, then builds a fresh
backing `PCA(n_components=value)`. -/
def PrincipalComponentAnalysis.tune (h : PrincipalComponentAnalysis)
    (suggested : ℚ) : PrincipalComponentAnalysis :=
  { prop_tuner := ⟨suggested⟩, backing_pca := some ⟨suggested⟩ }

/-- Modelled from the spec: sklearn's PCA decomposition, an external
collaborator. `fit` learns a fitted state of type `F` from the
hyper-parameters and the data it is fit on; `transform` applies a fitted
state to data. `fit_transform(d)` is `fit` followed by `transform` on
the same data `d`. -/
structure PCAOracle (F : Type) where
  fit : ℚ → List (List (Option ℚ)) → F
  transform : F → List (List (Option ℚ)) → List (List (Option ℚ))

/-- numpy `arr.shape[1]` for a rectangular 2-D array given as rows. -/
def arrayWidth (m : List (List (Option ℚ))) : ℕ := (m.headD []).length

/-- The synthetic feature names `PC0, PC1, ..., PC{k-1}`. -/
def pcLabels (k : ℕ) : List String :=
  (List.range k).map (fun i => "PC" ++ toString i)

/-- The value `PrincipalComponentAnalysis.run`/`run_fitted` return:
a reconstructed container on the multi-feature branch, the raw
transformed array on the single-feature branch. -/
inductive PCAOut
  | container (c : BaseDataManager)
  | rawArray (a : List (List (Option ℚ)))
deriving DecidableEq, Repr

/-- `PrincipalComponentAnalysis.run` (feature_selection.py:127-144):
with no backing PCA the attribute access on `None` fails; otherwise on a
multi-feature container it fit-transforms the full array, drops all
original features and sets the `PC{i}` components; on a single-feature
container it returns the raw fit-transformed array. The fitted state is
returned alongside, mirroring the mutation of `self.backing_pca`. -/
def PrincipalComponentAnalysis.run {F : Type} (h : PrincipalComponentAnalysis)
    (pca : PCAOracle F) (x : BaseDataManager) : Except String (PCAOut × F) :=
  match h.backing_pca with
  | none => .error "AttributeError: NoneType object has no attribute fit_transform"
  | some p =>
    if x.isMulti then
      let fitted := pca.fit p.nComponents x.asArray
      let tmp_train := pca.transform fitted x.asArray
      let feature_labels := pcLabels (arrayWidth tmp_train)
      let x_out := (x.dropFeatures x.features).setFeatures feature_labels tmp_train
      .ok (.container x_out, fitted)
    else
      let fitted := pca.fit p.nComponents x.asArray
      .ok (.rawArray (pca.transform fitted x.asArray), fitted)

/-- `PrincipalComponentAnalysis.run_fitted` (feature_selection.py:146-175):
multi-feature branch fits on `x_train` only and applies the same fitted
state to `x_test`, relabeling both to the `PC{i}` features computed from
the train transform; single-feature branch fit-transforms `x_train` and
then independently re-fits and transforms `x_test`, leaving the backing
PCA fitted on the test data. -/
def PrincipalComponentAnalysis.run_fitted {F : Type} (h : PrincipalComponentAnalysis)
    (pca : PCAOracle F) (x_train x_test : BaseDataManager) :
    Except String ((PCAOut × PCAOut) × F) :=
  match h.backing_pca with
  | none => .error "AttributeError: NoneType object has no attribute fit_transform"
  | some p =>
    if x_train.isMulti then
      let fitted := pca.fit p.nComponents x_train.asArray
      let tmp_train := pca.transform fitted x_train.asArray
      let feature_labels := pcLabels (arrayWidth tmp_train)
      let train_out := (x_train.dropFeatures x_train.features).setFeatures feature_labels tmp_train
      let tmp_test := pca.transform fitted x_test.asArray
      let test_out := (x_test.dropFeatures x_test.features).setFeatures feature_labels tmp_test
      .ok ((.container train_out, .container test_out), fitted)
    else
      let fitted_train := pca.fit p.nComponents x_train.asArray
      let train_out := pca.transform fitted_train x_train.asArray
      let fitted_test := pca.fit p.nComponents x_test.asArray
      let test_out := pca.transform fitted_test x_test.asArray
      .ok ((.rawArray train_out, .rawArray test_out), fitted_test)

/-- A PCA oracle whose fitted state records exactly the data it was fit
on, and whose transform is the identity: a legitimate instantiation of
the external decomposition used to observe which data a fit saw. -/
def recordingPCA : PCAOracle (List (List (Option ℚ))) :=
  ⟨fun _ d => d, fun _ d => d⟩

/-- A PCA oracle with trivial fitted state and identity transform. -/
def trivialPCA : PCAOracle Unit := ⟨fun _ _ => (), fun _ d => d⟩

/-- A hook on which `tune` has been called once with suggestion 1/2. -/
def pcaTunedExample : PrincipalComponentAnalysis :=
  (PrincipalComponentAnalysis.init (7/10)).tune (1/2)

/-- Single-feature train container with two samples. -/
def xTrainSingle : BaseDataManager := ⟨false, ["a"], [[some 1], [some 2]]⟩

/-- Two single-feature test containers differing only in their value. -/
def xTestSingleA : BaseDataManager := ⟨false, ["a"], [[some 3]]⟩

def xTestSingleB : BaseDataManager := ⟨false, ["a"], [[some 4]]⟩

theorem dropFeatures_self_features (x : BaseDataManager) :
    (x.dropFeatures x.features).features = [] := by
  simp [BaseDataManager.dropFeatures, List.filter_eq_nil_iff]

/-- C1 (evaluation at the failing input): on single-feature containers,
`run_fitted` leaves the backing PCA fitted on the *test* data: with the
same `x_train` and two different `x_test` values, the resulting fitted
state equals the respective test array, so the fitted transform
parameters depend on `x_test`, contradicting the fit-on-train-only
contract. -/
theorem pca_run_fitted_single_feature_leaks_test :
    (PrincipalComponentAnalysis.run_fitted pcaTunedExample recordingPCA
        xTrainSingle xTestSingleA).map Prod.snd = Except.ok [[(some 3 : Option ℚ)]] ∧
    (PrincipalComponentAnalysis.run_fitted pcaTunedExample recordingPCA
        xTrainSingle xTestSingleB).map Prod.snd = Except.ok [[(some 4 : Option ℚ)]] := by
  constructor <;> rfl

/-- C8: with a tuned backing PCA, on a multi-feature container with `n`
samples `run` succeeds with a container of `n` samples and features
exactly `PC0..PC{k-1}`, `k` the component count of the transform output;
and `run_fitted` gives its two output containers the identical feature
list. -/
theorem pca_run_shape_invariant {F : Type} (pca : PCAOracle F)
    (h : PrincipalComponentAnalysis) (p : PCAParams) (x x_test : BaseDataManager)
    (hb : h.backing_pca = some p) (hm : x.isMulti = true)
    (hn : (pca.transform (pca.fit p.nComponents x.asArray) x.asArray).length = x.len) :
    (∃ out fitted, PrincipalComponentAnalysis.run h pca x =
        Except.ok (PCAOut.container out, fitted) ∧
      out.len = x.len ∧
      out.features =
        pcLabels (arrayWidth (pca.transform (pca.fit p.nComponents x.asArray) x.asArray))) ∧
    (∃ train_out test_out fitted,
      PrincipalComponentAnalysis.run_fitted h pca x x_test =
        Except.ok ((PCAOut.container train_out, PCAOut.container test_out), fitted) ∧
      train_out.features = test_out.features) := by
  have hrun : PrincipalComponentAnalysis.run h pca x =
      Except.ok (PCAOut.container ((x.dropFeatures x.features).setFeatures
        (pcLabels (arrayWidth (pca.transform (pca.fit p.nComponents x.asArray) x.asArray)))
        (pca.transform (pca.fit p.nComponents x.asArray) x.asArray)),
        pca.fit p.nComponents x.asArray) := by
    unfold PrincipalComponentAnalysis.run
    rw [hb, hm]
    rfl
  have hrunf : PrincipalComponentAnalysis.run_fitted h pca x x_test =
      Except.ok ((PCAOut.container ((x.dropFeatures x.features).setFeatures
          (pcLabels (arrayWidth (pca.transform (pca.fit p.nComponents x.asArray) x.asArray)))
          (pca.transform (pca.fit p.nComponents x.asArray) x.asArray)),
        PCAOut.container ((x_test.dropFeatures x_test.features).setFeatures
          (pcLabels (arrayWidth (pca.transform (pca.fit p.nComponents x.asArray) x.asArray)))
          (pca.transform (pca.fit p.nComponents x.asArray) x_test.asArray))),
        pca.fit p.nComponents x.asArray) := by
    unfold PrincipalComponentAnalysis.run_fitted
    rw [hb, hm]
    rfl
  constructor
  · refine ⟨_, _, hrun, ?_, ?_⟩
    · show (List.length _) = x.len
      simp only [BaseDataManager.setFeatures, BaseDataManager.dropFeatures,
        List.length_map, List.length_zip]
      rw [hn]
      exact Nat.min_self _
    · show (x.dropFeatures x.features).features ++ _ = _
      rw [dropFeatures_self_features]
      rfl
  · refine ⟨_, _, _, hrunf, ?_⟩
    show (x.dropFeatures x.features).features ++ _ =
      (x_test.dropFeatures x_test.features).features ++ _
    rw [dropFeatures_self_features, dropFeatures_self_features]

theorem pca_run_shape_invariant_witness :
    (pcaTunedExample.backing_pca = some ⟨1/2⟩ ∧ xFeatNullExample.isMulti = true ∧
      (trivialPCA.transform (trivialPCA.fit (1/2 : ℚ) xFeatNullExample.asArray)
        xFeatNullExample.asArray).length = xFeatNullExample.len) ∧
    ((∃ out fitted, PrincipalComponentAnalysis.run pcaTunedExample trivialPCA xFeatNullExample =
        Except.ok (PCAOut.container out, fitted) ∧
      out.len = xFeatNullExample.len ∧
      out.features = pcLabels (arrayWidth (trivialPCA.transform
        (trivialPCA.fit (1/2 : ℚ) xFeatNullExample.asArray) xFeatNullExample.asArray))) ∧
    (∃ train_out test_out fitted,
      PrincipalComponentAnalysis.run_fitted pcaTunedExample trivialPCA
          xFeatNullExample xNullExample =
        Except.ok ((PCAOut.container train_out, PCAOut.container test_out), fitted) ∧
      train_out.features = test_out.features)) :=
  ⟨⟨rfl, rfl, rfl⟩,
   pca_run_shape_invariant trivialPCA pcaTunedExample ⟨1/2⟩ xFeatNullExample xNullExample
     rfl rfl rfl⟩

/-- C10: a freshly constructed `PrincipalComponentAnalysis` hook has
`backing_pca = None` and both `run` and `run_fitted` fail on it; after a
`tune` call the backing transform is the `PCA(n_components=v)` built
from the most recent suggestion `v`, and `run`/`run_fitted` no longer
reach the error branch. -/
theorem pca_untuned_fails_tuned_succeeds {F : Type} (pca : PCAOracle F)
    (proportion v : ℚ) (h : PrincipalComponentAnalysis) (x x2 : BaseDataManager) :
    (PrincipalComponentAnalysis.init proportion).backing_pca = none ∧
    (∃ e, PrincipalComponentAnalysis.run (PrincipalComponentAnalysis.init proportion) pca x =
      Except.error e) ∧
    (∃ e, PrincipalComponentAnalysis.run_fitted (PrincipalComponentAnalysis.init proportion)
      pca x x2 = Except.error e) ∧
    (h.tune v).backing_pca = some ⟨v⟩ ∧
    (PrincipalComponentAnalysis.run (h.tune v) pca x).isOk = true ∧
    (PrincipalComponentAnalysis.run_fitted (h.tune v) pca x x2).isOk = true := by
  refine ⟨rfl, ⟨_, rfl⟩, ⟨_, rfl⟩, rfl, ?_, ?_⟩
  · by_cases hx : x.isMulti = true
    · simp [PrincipalComponentAnalysis.run, PrincipalComponentAnalysis.tune, hx, Except.isOk, Except.toBool]
    · simp [PrincipalComponentAnalysis.run, PrincipalComponentAnalysis.tune, hx, Except.isOk, Except.toBool]
  · by_cases hx : x.isMulti = true
    · simp [PrincipalComponentAnalysis.run_fitted, PrincipalComponentAnalysis.tune, hx,
        Except.isOk, Except.toBool]
    · simp [PrincipalComponentAnalysis.run_fitted, PrincipalComponentAnalysis.tune, hx,
        Except.isOk, Except.toBool]

/-- The study-configuration fields `StudyManager.run` reads from its
`StudyConfig` collaborator. -/
structure StudyConfig where
  random_seed : ℤ
  no_replicates : ℕ
  no_trials : ℕ
deriving DecidableEq, Repr

/-- One observable effect in the body of `StudyManager.run`. -/
inductive RunStep
  | seedGlobalRNG (seed : ℤ)
  | genReplicateSeeds (count : ℕ)
  | buildSplitter (nSplits : ℕ) (randomState : ℤ) (shuffle : Bool)
  | preAnalysis
  | extractTarget
  | initDB
  | replicateRun (i : ℕ)
deriving DecidableEq, Repr

/-- `StudyManager.run` (manager.py:122-161) as the ordered list of its
effects: seed the global RNG from the study seed (line 125), draw the
per-replicate seeds from it (line 131), build the stratified k-fold
splitter with `n_splits = no_replicates`, `random_state = init_seed`,
`shuffle=True` (line 132), run the pre-analysis hook pipeline
(line 135), extract the target feature(s) (lines 138-142), initialise
the result DB (line 145), then run each replicate (lines 148-161). -/
def StudyManager.runEffects (cfg : StudyConfig) : List RunStep :=
  [RunStep.seedGlobalRNG cfg.random_seed,
   RunStep.genReplicateSeeds cfg.no_replicates,
   RunStep.buildSplitter cfg.no_replicates cfg.random_seed true,
   RunStep.preAnalysis,
   RunStep.extractTarget,
   RunStep.initDB] ++ (List.range cfg.no_replicates).map RunStep.replicateRun

/-- One row saved by `StudyManager.save_results` (manager.py:96-103):
`(replicate_n, trial_n, *metrics.values())`, the metrics as produced by
`calculate_metrics` with `objective` first. -/
structure ResultRow where
  replicate : ℕ
  trial : ℕ
  metrics : List (String × ℚ)
deriving DecidableEq, Repr

/-- `StudyManager.calculate_metrics` (manager.py:106-120): evaluates the
objective on `(model, test_x, test_y)`, builds the metric dict starting
with `objective`, then appends every tracked metric; returns the
objective value alongside. -/
def StudyManager.calculate_metrics {Model : Type}
    (objective : Model → BaseDataManager → BaseDataManager → ℚ)
    (tracked : List (String × (Model → BaseDataManager → BaseDataManager → ℚ)))
    (model : Model) (test_x test_y : BaseDataManager) : ℚ × List (String × ℚ) :=
  let obj_val := objective model test_x test_y
  (obj_val, ("objective", obj_val) :: tracked.map (fun kv => (kv.1, kv.2 model test_x test_y)))

/-- `StudyManager.save_results` (manager.py:96-103): appends one row to
the study's result table. -/
def StudyManager.save_results (db : List ResultRow) (replicate_n trial_n : ℕ)
    (metrics : List (String × ℚ)) : List ResultRow :=
  db ++ [⟨replicate_n, trial_n, metrics⟩]

/-- `StudyManager.run_supervised` (manager.py:163-191): Optuna's
`study.optimize(opt_func, n_trials)` evaluates `opt_func` once per trial
with sequential trial numbers `0..no_trials-1` (external trial
contract); each call builds a model from the trial, fits it on the
training data, computes the metrics on the test data and persists one
row. `modelFit trial_number train_x train_y` stands for
`model_factory.build_model(trial)` followed by `model.fit(train_x,
train_y)`. -/
def StudyManager.run_supervised {Model : Type}
    (objective : Model → BaseDataManager → BaseDataManager → ℚ)
    (tracked : List (String × (Model → BaseDataManager → BaseDataManager → ℚ)))
    (modelFit : ℕ → BaseDataManager → BaseDataManager → Model)
    (rep : ℕ) (train_x train_y test_x test_y : BaseDataManager)
    (no_trials : ℕ) (db : List ResultRow) : List ResultRow :=
  (List.range no_trials).foldl
    (fun acc trial_number =>
      let model := modelFit trial_number train_x train_y
      let om := StudyManager.calculate_metrics objective tracked model test_x test_y
      StudyManager.save_results acc rep trial_number om.2)
    db

/-- The replicate loop of `StudyManager.run` (manager.py:148-161):
each fold `(train_idx, test_idx)` of the stratified splitter (external
collaborator, passed as `folds`) splits `x` and `y` by those indices and
delegates to `run_supervised` with the replicate index. -/
def StudyManager.runReplicates {Model : Type}
    (objective : Model → BaseDataManager → BaseDataManager → ℚ)
    (tracked : List (String × (Model → BaseDataManager → BaseDataManager → ℚ)))
    (modelFit : ℕ → BaseDataManager → BaseDataManager → Model)
    (folds : List (List ℕ × List ℕ)) (x y : BaseDataManager)
    (no_trials : ℕ) : List ResultRow :=
  folds.enum.foldl
    (fun db itt =>
      let train_x := x.indexRows itt.2.1
      let test_x := x.indexRows itt.2.2
      let train_y := y.indexRows itt.2.1
      let test_y := y.indexRows itt.2.2
      StudyManager.run_supervised objective tracked modelFit itt.1
        train_x train_y test_x test_y no_trials db)
    []

/-- C2 counterexample: in the effect order of `StudyManager.run` for the
concrete study config `(random_seed=42, no_replicates=3, no_trials=2)`,
the pre-analysis pipeline and target extraction do NOT precede the
generation of replicate seeds: the seeds and splitter are produced first
(manager.py:131-132 before lines 135-142). -/
theorem run_order_preanalysis_first_fails :
    ¬ ((StudyManager.runEffects ⟨42, 3, 2⟩).findIdx (fun s => decide (s = RunStep.preAnalysis)) <
         (StudyManager.runEffects ⟨42, 3, 2⟩).findIdx
           (fun s => decide (s = RunStep.genReplicateSeeds 3)) ∧
       (StudyManager.runEffects ⟨42, 3, 2⟩).findIdx (fun s => decide (s = RunStep.extractTarget)) <
         (StudyManager.runEffects ⟨42, 3, 2⟩).findIdx
           (fun s => decide (s = RunStep.buildSplitter 3 42 true))) := by
  decide

/-- C2 (amended): `StudyManager.run` seeds the global RNG first, then
generates the per-replicate seeds and builds the stratified splitter,
and only after that runs the pre-analysis hook pipeline and extracts the
target features (effect positions 0, 1, 2, 3, 4 respectively). -/
theorem run_order_seeds_before_preanalysis (cfg : StudyConfig) :
    (StudyManager.runEffects cfg).findIdx
      (fun s => decide (s = RunStep.seedGlobalRNG cfg.random_seed)) = 0 ∧
    (StudyManager.runEffects cfg).findIdx
      (fun s => decide (s = RunStep.genReplicateSeeds cfg.no_replicates)) = 1 ∧
    (StudyManager.runEffects cfg).findIdx
      (fun s => decide (s = RunStep.buildSplitter cfg.no_replicates cfg.random_seed true)) = 2 ∧
    (StudyManager.runEffects cfg).findIdx (fun s => decide (s = RunStep.preAnalysis)) = 3 ∧
    (StudyManager.runEffects cfg).findIdx (fun s => decide (s = RunStep.extractTarget)) = 4 := by
  refine ⟨?_, ?_, ?_, ?_, ?_⟩ <;>
    simp [StudyManager.runEffects, List.findIdx_cons]

theorem StudyManager.save_results_length (db : List ResultRow)
    (replicate_n trial_n : ℕ) (metrics : List (String × ℚ)) :
    (StudyManager.save_results db replicate_n trial_n metrics).length = db.length + 1 := by
  simp [StudyManager.save_results]

theorem StudyManager.run_supervised_length {Model : Type}
    (objective : Model → BaseDataManager → BaseDataManager → ℚ)
    (tracked : List (String × (Model → BaseDataManager → BaseDataManager → ℚ)))
    (modelFit : ℕ → BaseDataManager → BaseDataManager → Model)
    (rep : ℕ) (train_x train_y test_x test_y : BaseDataManager)
    (no_trials : ℕ) (db : List ResultRow) :
    (StudyManager.run_supervised objective tracked modelFit rep
      train_x train_y test_x test_y no_trials db).length = db.length + no_trials := by
  unfold StudyManager.run_supervised
  induction no_trials with
  | zero => rfl
  | succ t ih =>
    rw [List.range_succ, List.foldl_append]
    simp only [List.foldl_cons, List.foldl_nil]
    rw [StudyManager.save_results_length, ih]
    omega

theorem StudyManager.run_supervised_mem {Model : Type}
    (objective : Model → BaseDataManager → BaseDataManager → ℚ)
    (tracked : List (String × (Model → BaseDataManager → BaseDataManager → ℚ)))
    (modelFit : ℕ → BaseDataManager → BaseDataManager → Model)
    (rep : ℕ) (train_x train_y test_x test_y : BaseDataManager)
    (no_trials : ℕ) (db : List ResultRow) (row : ResultRow) :
    row ∈ StudyManager.run_supervised objective tracked modelFit rep
      train_x train_y test_x test_y no_trials db →
    row ∈ db ∨ (row.metrics.lookup "objective").isSome = true := by
  unfold StudyManager.run_supervised
  induction no_trials with
  | zero => exact Or.inl
  | succ t ih =>
    rw [List.range_succ, List.foldl_append]
    simp only [List.foldl_cons, List.foldl_nil, StudyManager.save_results]
    intro hmem
    rcases List.mem_append.mp hmem with hm | hm
    · exact ih hm
    · right
      have hrow := List.mem_singleton.mp hm
      rw [hrow]
      simp [StudyManager.calculate_metrics, List.lookup]

theorem StudyManager.runReplicates_fold_length {Model : Type}
    (objective : Model → BaseDataManager → BaseDataManager → ℚ)
    (tracked : List (String × (Model → BaseDataManager → BaseDataManager → ℚ)))
    (modelFit : ℕ → BaseDataManager → BaseDataManager → Model)
    (x y : BaseDataManager) (no_trials : ℕ)
    (pairs : List (ℕ × (List ℕ × List ℕ))) (db : List ResultRow) :
    (pairs.foldl (fun db itt =>
        StudyManager.run_supervised objective tracked modelFit itt.1
          (x.indexRows itt.2.1) (y.indexRows itt.2.1)
          (x.indexRows itt.2.2) (y.indexRows itt.2.2) no_trials db) db).length =
      db.length + pairs.length * no_trials := by
  induction pairs generalizing db with
  | nil => simp
  | cons hd tl ih =>
    simp only [List.foldl_cons]
    rw [ih, StudyManager.run_supervised_length]
    simp only [List.length_cons]
    ring

theorem StudyManager.runReplicates_fold_mem {Model : Type}
    (objective : Model → BaseDataManager → BaseDataManager → ℚ)
    (tracked : List (String × (Model → BaseDataManager → BaseDataManager → ℚ)))
    (modelFit : ℕ → BaseDataManager → BaseDataManager → Model)
    (x y : BaseDataManager) (no_trials : ℕ)
    (pairs : List (ℕ × (List ℕ × List ℕ))) (db : List ResultRow) (row : ResultRow) :
    row ∈ pairs.foldl (fun db itt =>
        StudyManager.run_supervised objective tracked modelFit itt.1
          (x.indexRows itt.2.1) (y.indexRows itt.2.1)
          (x.indexRows itt.2.2) (y.indexRows itt.2.2) no_trials db) db →
    row ∈ db ∨ (row.metrics.lookup "objective").isSome = true := by
  induction pairs generalizing db with
  | nil => exact Or.inl
  | cons hd tl ih =>
    simp only [List.foldl_cons]
    intro hmem
    rcases ih _ hmem with hm | hm
    · exact StudyManager.run_supervised_mem objective tracked modelFit hd.1
        (x.indexRows hd.2.1) (y.indexRows hd.2.1)
        (x.indexRows hd.2.2) (y.indexRows hd.2.2) no_trials db row hm
    · exact Or.inr hm

/-- C3: a completed study with `R` replicate folds and `no_trials = T`
persists exactly one row per trial, `R * T` rows in total, each row's
metric dict carrying a (non-null) `objective` value; in particular
`R = 3, T = 2` yields exactly 6 rows. -/
theorem study_persists_one_row_per_trial {Model : Type}
    (objective : Model → BaseDataManager → BaseDataManager → ℚ)
    (tracked : List (String × (Model → BaseDataManager → BaseDataManager → ℚ)))
    (modelFit : ℕ → BaseDataManager → BaseDataManager → Model)
    (folds : List (List ℕ × List ℕ)) (x y : BaseDataManager) (r t : ℕ)
    (hr : folds.length = r) :
    (StudyManager.runReplicates objective tracked modelFit folds x y t).length = r * t ∧
    (∀ row ∈ StudyManager.runReplicates objective tracked modelFit folds x y t,
      (row.metrics.lookup "objective").isSome = true) := by
  constructor
  · have h := StudyManager.runReplicates_fold_length objective tracked modelFit
      x y t folds.enum []
    have h2 : ([] : List ResultRow).length + folds.enum.length * t = r * t := by
      simp [List.enum_length, hr]
    rw [h2] at h
    exact h
  · intro row hrow
    have h := StudyManager.runReplicates_fold_mem objective tracked modelFit
      x y t folds.enum [] row hrow
    rcases h with hm | hm
    · exact absurd hm (List.not_mem_nil row)
    · exact hm

theorem study_persists_one_row_per_trial_witness :
    ([([0], [1]), ([1], [2]), ([2], [0])] : List (List ℕ × List ℕ)).length = 3 ∧
    ((StudyManager.runReplicates (fun (_ : Unit) _ _ => (1 : ℚ))
        [("bacc", fun _ _ _ => (1/2 : ℚ))] (fun _ _ _ => ())
        [([0], [1]), ([1], [2]), ([2], [0])] xNullExample xNullExample 2).length = 3 * 2 ∧
      (∀ row ∈ StudyManager.runReplicates (fun (_ : Unit) _ _ => (1 : ℚ))
          [("bacc", fun _ _ _ => (1/2 : ℚ))] (fun _ _ _ => ())
          [([0], [1]), ([1], [2]), ([2], [0])] xNullExample xNullExample 2,
        (row.metrics.lookup "objective").isSome = true)) :=
  ⟨rfl, study_persists_one_row_per_trial (fun (_ : Unit) _ _ => (1 : ℚ))
    [("bacc", fun _ _ _ => (1/2 : ℚ))] (fun _ _ _ => ())
    [([0], [1]), ([1], [2]), ([2], [0])] xNullExample xNullExample 3 2 rfl⟩
